import Mathlib

/-!
Shallow embedding of the JSON-RPC 2.0 engine in `src/lib.rs`
(crate `jsonrpc`, built on `rustc_serialize::json::Json`).

Modelling conventions:
* `Json` mirrors `rustc_serialize::json::Json`; the three numeric variants
  `I64`/`U64`/`F64` are collapsed into a single integer variant `num`,
  since the engine only stores, compares and echoes numbers and never
  performs numeric computation on them.
* `Json::Object` is a `BTreeMap<String, Json>`: we represent it as an
  association list kept sorted by key, with `objInsert` playing the role
  of `BTreeMap::insert` (ordered insertion with replacement).
* The JSON text parser/serializer is external to the crate; the driver
  is therefore modelled from the parse result (`Option Json`, `none`
  being a `ParserError`) up to the final JSON value of the answer.
* Rust `Result<Json, ErrorJsonRpc>` becomes `Except ErrorJsonRpc Json`;
  the `Handler` trait object (with its context already applied) becomes
  a plain function `HandlerFn`.
-/

namespace JsonRpc

/-- JSON tree values, after `rustc_serialize::json::Json`. -/
inductive Json where
  | null : Json
  | bool (b : Bool) : Json
  | num (n : Int) : Json
  | str (s : String) : Json
  | arr (items : List Json) : Json
  | obj (members : List (String × Json)) : Json


/-- `BTreeMap::get`: look a key up in a (sorted) association list. -/
def jget (o : List (String × Json)) (k : String) : Option Json :=
  match o with
  | [] => none
  | (k', v) :: rest => if k == k' then some v else jget rest k

/-- `BTreeMap::insert`: ordered insertion, replacing an equal key. -/
def objInsert (k : String) (v : Json) : List (String × Json) → List (String × Json)
  | [] => [(k, v)]
  | (k', v') :: rest =>
    match compare k k' with
    | .lt => (k, v) :: (k', v') :: rest
    | .eq => (k, v) :: rest
    | .gt => (k', v') :: objInsert k v rest

/-- `Json::as_string`: `Some` exactly on the string variant. -/
def Json.as_string : Json → Option String
  | .str s => some s
  | _ => none

/-- `enum ErrorCode` from `src/lib.rs`. -/
inductive ErrorCode where
  | ParseError : ErrorCode
  | InvalidRequest : ErrorCode
  | MethodNotFound : ErrorCode
  | InvalidParams : ErrorCode
  | InternalError : ErrorCode
  | ServerError (code : Int) (msg : String) : ErrorCode


/-- `ErrorCode::get_code`. -/
def ErrorCode.get_code : ErrorCode → Int
  | .ParseError => -32700
  | .InvalidRequest => -32600
  | .MethodNotFound => -32601
  | .InvalidParams => -32602
  | .InternalError => -32603
  | .ServerError x _ => x

/-- `ErrorCode::get_desc`. -/
def ErrorCode.get_desc : ErrorCode → String
  | .ParseError => "Parse error"
  | .InvalidRequest => "Invalid Request"
  | .MethodNotFound => "Method not found"
  | .InvalidParams => "Invalid params"
  | .InternalError => "Internal error"
  | .ServerError _ s => s

/-- `ErrorCode::is_valid`: the `-32099...-32000` range pattern is the
inclusive range `-32099 <= code <= -32000`. -/
def ErrorCode.is_valid : ErrorCode → Bool
  | .ServerError x _ => decide (-32099 ≤ x) && decide (x ≤ -32000)
  | _ => true

/-- `struct JsonRpcRequest` (the borrowed `&Json` fields become values). -/
structure JsonRpcRequest where
  method : String
  params : Option Json
  id : Option Json


/-- `struct ErrorJsonRpc`. -/
structure ErrorJsonRpc where
  error : ErrorCode
  data : Option Json


/-- `ErrorJsonRpc::new`. -/
def ErrorJsonRpc.new (err : ErrorCode) : ErrorJsonRpc :=
  ⟨err, none⟩

/-- `ErrorJsonRpc::new_data`. -/
def ErrorJsonRpc.new_data (err : ErrorCode) (data : Json) : ErrorJsonRpc :=
  ⟨err, some data⟩

/-- `ErrorJsonRpc::get_code`. -/
def ErrorJsonRpc.get_code (e : ErrorJsonRpc) : Int :=
  e.error.get_code

/-- `ErrorJsonRpc::get_message`. -/
def ErrorJsonRpc.get_message (e : ErrorJsonRpc) : String :=
  e.error.get_desc

/-- `impl ToJson for ErrorJsonRpc`: `code`, `message`, optional `data`
inserted into a fresh `BTreeMap`. -/
def ErrorJsonRpc.to_json (e : ErrorJsonRpc) : Json :=
  let d : List (String × Json) := []
  let d := objInsert "code" (Json.num e.get_code) d
  let d := objInsert "message" (Json.str e.get_message) d
  let d := match e.data with
    | some data => objInsert "data" data d
    | none => d
  Json.obj d

/-- `struct JsonRpcResponse`. -/
structure JsonRpcResponse where
  result : Option Json
  error : Option ErrorJsonRpc
  id : Option Json


/-- `JsonRpcResponse::new_error`: an invalid error code is downgraded to
`InternalError` before the response is composed. -/
def JsonRpcResponse.new_error (err : ErrorCode) (data : Option Json)
    (id : Option Json) : JsonRpcResponse :=
  let error := if err.is_valid then err else ErrorCode.InternalError
  { result := none
    error := match data with
      | some data => some (ErrorJsonRpc.new_data error data)
      | none => some (ErrorJsonRpc.new error)
    id := id }

/-- `JsonRpcResponse::new_result`. -/
def JsonRpcResponse.new_result (req : JsonRpcRequest) (data : Json) : JsonRpcResponse :=
  { result := some data, error := none, id := req.id }

/-- `impl ToJson for JsonRpcResponse`: a response with no id at all
renders as the `Json::Null` suppression sentinel; otherwise the
`jsonrpc`/`result`/`error`/`id` members go into a `BTreeMap`. -/
def JsonRpcResponse.to_json (r : JsonRpcResponse) : Json :=
  match r.id with
  | none => Json.null
  | some _ =>
    let d : List (String × Json) := []
    let d := objInsert "jsonrpc" (Json.str "2.0") d
    let d := match r.result with
      | some result => objInsert "result" result d
      | none => d
    let d := match r.error with
      | some e => objInsert "error" e.to_json d
      | none => d
    let d := match r.id with
      | some i => objInsert "id" i d
      | none => d
    Json.obj d

/-- `enum InternalErrorCode`. -/
inductive InternalErrorCode where
  | WithId (err : ErrorCode) (id : Option Json) (data : Option Json) : InternalErrorCode
  | WithoutId (err : ErrorCode) (data : Option Json) : InternalErrorCode


/-- `InternalErrorCode::into_response`: an error raised before the id was
known gets `Some(Json::Null)` as its id. -/
def InternalErrorCode.into_response : InternalErrorCode → JsonRpcResponse
  | .WithId err id data => JsonRpcResponse.new_error err data id
  | .WithoutId err data => JsonRpcResponse.new_error err data (some Json.null)

/-- The `Handler` capability of `JsonRpcServer<H>`, with its context
already applied: one call per validated request. -/
def HandlerFn : Type :=
  JsonRpcRequest → Except ErrorJsonRpc Json

/-- The `jsonrpc` check of `_handle_single`:
`req.get("jsonrpc").and_then(|o| o.as_string()).map_or(false, |s| s == "2.0")`. -/
def versionOk (req : List (String × Json)) : Bool :=
  match (jget req "jsonrpc").bind Json.as_string with
  | some s => s == "2.0"
  | none => false

/-- The id check of `_handle_single`: `if let Some(&Json::Object(_)) = request_id`. -/
def idIsObject : Option Json → Bool
  | some (Json.obj _) => true
  | _ => false

/-- The `params` step of `_handle_single`: an array or object is kept,
an explicit `Json::Null` becomes `None`, any other present value is an
`InvalidRequest`, absence is `None`. -/
def parseParams : Option Json → Except InternalErrorCode (Option Json)
  | some (Json.arr a) => .ok (some (Json.arr a))
  | some (Json.obj m) => .ok (some (Json.obj m))
  | some Json.null => .ok none
  | some _ => .error (.WithoutId ErrorCode.InvalidRequest none)
  | none => .ok none

/-- The tail of `_handle_single`: invoke the handler on the validated
request and map the two outcomes
(`.map(new_result).map_err(|e| WithId(e.error, request.id, e.data))`). -/
def dispatch (handler : HandlerFn) (request : JsonRpcRequest) :
    Except InternalErrorCode JsonRpcResponse :=
  match handler request with
  | .ok s => .ok (JsonRpcResponse.new_result request s)
  | .error e => .error (.WithId e.error request.id e.data)

/-- `JsonRpcServer::_handle_single`, over one JSON object. -/
def handleSingle (handler : HandlerFn) (req : List (String × Json)) :
    Except InternalErrorCode JsonRpcResponse :=
  if !(versionOk req) then
    .error (.WithoutId ErrorCode.InvalidRequest none)
  else if idIsObject (jget req "id") then
    .error (.WithoutId ErrorCode.InvalidRequest none)
  else
    match (jget req "method").bind Json.as_string with
    | none => .error (.WithoutId ErrorCode.InvalidRequest none)
    | some request_method =>
      match parseParams (jget req "params") with
      | .error e => .error e
      | .ok request_params =>
        dispatch handler ⟨request_method, request_params, jget req "id"⟩

/-- `_handle_single` instrumented with the number of handler invocations
it performs; identical control flow, used only to state the
exactly-once contract. -/
def handleSingleCount (handler : HandlerFn) (req : List (String × Json)) :
    Except InternalErrorCode JsonRpcResponse × Nat :=
  if !(versionOk req) then
    (.error (.WithoutId ErrorCode.InvalidRequest none), 0)
  else if idIsObject (jget req "id") then
    (.error (.WithoutId ErrorCode.InvalidRequest none), 0)
  else
    match (jget req "method").bind Json.as_string with
    | none => (.error (.WithoutId ErrorCode.InvalidRequest none), 0)
    | some request_method =>
      match parseParams (jget req "params") with
      | .error e => (.error e, 0)
      | .ok request_params =>
        (dispatch handler ⟨request_method, request_params, jget req "id"⟩, 1)

/-- Envelope validation succeeds: the four guards of `_handle_single`
(version, non-object id, string method, legal params) all pass. -/
def validates (req : List (String × Json)) : Bool :=
  versionOk req && !idIsObject (jget req "id") &&
    ((jget req "method").bind Json.as_string).isSome &&
    (parseParams (jget req "params")).isOk

/-- The per-element body of `_handle_multiple`'s `filter_map`:
`as_object().ok_or(InvalidRequest).and_then(_handle_single).unwrap_or_else(into_response)`. -/
def elemResponse (handler : HandlerFn) (request : Json) : JsonRpcResponse :=
  match request with
  | Json.obj o =>
    match handleSingle handler o with
    | .ok r => r
    | .error e => e.into_response
  | _ => (InternalErrorCode.WithoutId ErrorCode.InvalidRequest none).into_response

/-- `JsonRpcServer::_handle_multiple`. -/
def handleMultiple (handler : HandlerFn) (array : List Json) :
    Except InternalErrorCode (Option Json) :=
  if array.isEmpty then
    .error (.WithoutId ErrorCode.InvalidRequest none)
  else
    let response_vector := array.filterMap (fun request =>
      let response := elemResponse handler request
      match response.id with
      | none => none
      | some _ => some response)
    if response_vector.isEmpty then
      .ok none
    else
      .ok (some (Json.arr (response_vector.map JsonRpcResponse.to_json)))

/-- `JsonRpcServer::_handle_request`, from the result of `Json::from_str`
(`none` models a `ParserError`, turned into `WithoutId(ParseError)` by
the `From<ParserError>` impl). -/
def handleRequest (handler : HandlerFn) (request_json : Option Json) :
    Except InternalErrorCode (Option Json) :=
  match request_json with
  | none => .error (.WithoutId ErrorCode.ParseError none)
  | some (Json.obj s) => (handleSingle handler s).map (fun m => some m.to_json)
  | some (Json.arr a) => handleMultiple handler a
  | some _ => .error (.WithoutId ErrorCode.InvalidRequest none)

/-- `JsonRpcServer::handle_request_context`, up to the final JSON value
(the textual `to_string` rendering is external to the engine):
`Some` when bytes would be written, `none` when the engine stays silent. -/
def handleRequestContext (handler : HandlerFn) (request_json : Option Json) :
    Option Json :=
  match handleRequest handler request_json with
  | .ok (some resp) =>
    match resp with
    | Json.null => none
    | _ => some resp
  | .ok none => none
  | .error err =>
    match err.into_response.to_json with
    | Json.null => none
    | response => some response

/-! Concrete handlers and rendered error objects used to instantiate the
theorems below. The handlers correspond to the closures registered in the
crate's own tests (constant results, or a constant classified failure). -/

/-- A handler answering `Json::Null` (the `notify_*` handlers of the tests). -/
def handlerNull : HandlerFn := fun _ => .ok Json.null

/-- A handler answering the number 1 (`simple_method` in the tests). -/
def handlerOne : HandlerFn := fun _ => .ok (Json.num 1)

/-- A handler answering the number 5: a notification handler breaking the
null-result convention. -/
def handlerFive : HandlerFn := fun _ => .ok (Json.num 5)

/-- A handler answering the number 19 (`subtract` in the tests). -/
def handlerNineteen : HandlerFn := fun _ => .ok (Json.num 19)

/-- A handler failing with `MethodNotFound`, as `HashMapWithMethods::handle`
does for an unregistered name. -/
def handlerNotFound : HandlerFn := fun _ => .error (ErrorJsonRpc.new ErrorCode.MethodNotFound)

/-- The rendered `InvalidRequest` response with id `null`
(the JSON value of `WithoutId(InvalidRequest, None).into_response()`). -/
def invalidRequestNullId : Json :=
  Json.obj
    [("error", Json.obj [("code", Json.num (-32600)),
                         ("message", Json.str "Invalid Request")]),
     ("id", Json.null), ("jsonrpc", Json.str "2.0")]

/-- The rendered `ParseError` response with id `null`. -/
def parseErrorNullId : Json :=
  Json.obj
    [("error", Json.obj [("code", Json.num (-32700)),
                         ("message", Json.str "Parse error")]),
     ("id", Json.null), ("jsonrpc", Json.str "2.0")]

/-- A present `params` value that the engine rejects: neither a sequence
nor a mapping nor the tolerated explicit null. -/
def paramsIllegal : Json → Bool
  | Json.arr _ => false
  | Json.obj _ => false
  | Json.null => false
  | _ => true

/-- A mixed batch: one call with id "1", one notification, one non-object
element (after the batch of `test_call_batch`). -/
def batchMixed : List Json :=
  [Json.obj [("id", Json.str "1"), ("jsonrpc", Json.str "2.0"),
             ("method", Json.str "sum"),
             ("params", Json.arr [Json.num 1, Json.num 2, Json.num 4])],
   Json.obj [("jsonrpc", Json.str "2.0"), ("method", Json.str "notify_hello"),
             ("params", Json.arr [Json.num 7])],
   Json.num 1]

/-- A batch consisting of notifications only
(after `test_call_batch_all_notifications`). -/
def batchNotifs : List Json :=
  [Json.obj [("jsonrpc", Json.str "2.0"), ("method", Json.str "notify_sum"),
             ("params", Json.arr [Json.num 1, Json.num 2, Json.num 4])],
   Json.obj [("jsonrpc", Json.str "2.0"), ("method", Json.str "notify_hello"),
             ("params", Json.arr [Json.num 7])]]

/-! ## Theorems -/

/-- A response whose id is structurally absent renders as the `Json::Null`
suppression sentinel. -/
theorem to_json_null_of_id_none (r : JsonRpcResponse) (hr : r.id = none) :
    r.to_json = Json.null := by
  unfold JsonRpcResponse.to_json
  rw [hr]

/-- C5: the error taxonomy is pure and fixed — ParseError is -32700,
InvalidRequest -32600, MethodNotFound -32601, InvalidParams -32602,
InternalError -32603; `is_valid` is true on every fixed kind and, on
`ServerError(code, _)`, true iff `-32099 ≤ code ≤ -32000`. -/
theorem C5_error_taxonomy :
    ErrorCode.get_code .ParseError = -32700 ∧
    ErrorCode.get_code .InvalidRequest = -32600 ∧
    ErrorCode.get_code .MethodNotFound = -32601 ∧
    ErrorCode.get_code .InvalidParams = -32602 ∧
    ErrorCode.get_code .InternalError = -32603 ∧
    ErrorCode.is_valid .ParseError = true ∧
    ErrorCode.is_valid .InvalidRequest = true ∧
    ErrorCode.is_valid .MethodNotFound = true ∧
    ErrorCode.is_valid .InvalidParams = true ∧
    ErrorCode.is_valid .InternalError = true ∧
    ∀ (c : Int) (m : String),
      ErrorCode.is_valid (.ServerError c m) = true ↔ (-32099 ≤ c ∧ c ≤ -32000) := by
  refine ⟨rfl, rfl, rfl, rfl, rfl, rfl, rfl, rfl, rfl, rfl, ?_⟩
  intro c m
  simp [ErrorCode.is_valid]

/-- C5 witness: `is_valid` evaluated through the theorem at the upper end
of the custom range. -/
theorem C5_witness : ErrorCode.is_valid (.ServerError (-32000) "boom") = true :=
  (C5_error_taxonomy.2.2.2.2.2.2.2.2.2.2 (-32000) "boom").mpr (by decide)

/-- C4: composing an error response from a `ServerError` whose code lies
outside `[-32099, -32000]` surfaces `InternalError` (-32603, message
"Internal error"), keeping any attached data and still producing an error
outcome; a `ServerError` inside the range is surfaced unchanged. -/
theorem C4_server_error_downgrade (c : Int) (m : String) (data id : Option Json) :
    (¬(-32099 ≤ c ∧ c ≤ -32000) →
      JsonRpcResponse.new_error (.ServerError c m) data id =
        { result := none
          error := some { error := ErrorCode.InternalError, data := data }
          id := id } ∧
      ErrorCode.get_code .InternalError = -32603 ∧
      ErrorCode.get_desc .InternalError = "Internal error") ∧
    ((-32099 ≤ c ∧ c ≤ -32000) →
      JsonRpcResponse.new_error (.ServerError c m) data id =
        { result := none
          error := some { error := ErrorCode.ServerError c m, data := data }
          id := id }) := by
  constructor
  · intro hout
    have hv : (ErrorCode.ServerError c m).is_valid = false := by
      simp only [ErrorCode.is_valid, Bool.and_eq_false_iff, decide_eq_false_iff_not]
      omega
    refine ⟨?_, rfl, rfl⟩
    cases data <;>
      simp [JsonRpcResponse.new_error, hv, ErrorJsonRpc.new, ErrorJsonRpc.new_data]
  · intro hin
    have hv : (ErrorCode.ServerError c m).is_valid = true := by
      simp [ErrorCode.is_valid]
      omega
    cases data <;>
      simp [JsonRpcResponse.new_error, hv, ErrorJsonRpc.new, ErrorJsonRpc.new_data]

/-- C4 witness: the downgrade branch at code 0 and the in-range branch at
code -32050, both with attached data and id 7. -/
theorem C4_witness :
    (JsonRpcResponse.new_error (.ServerError 0 "custom") (some (Json.str "d"))
        (some (Json.num 7)) =
      { result := none
        error := some { error := ErrorCode.InternalError, data := some (Json.str "d") }
        id := some (Json.num 7) }) ∧
    (JsonRpcResponse.new_error (.ServerError (-32050) "custom") (some (Json.str "d"))
        (some (Json.num 7)) =
      { result := none
        error := some { error := ErrorCode.ServerError (-32050) "custom",
                        data := some (Json.str "d") }
        id := some (Json.num 7) }) :=
  ⟨((C4_server_error_downgrade 0 "custom" (some (Json.str "d"))
      (some (Json.num 7))).1 (by decide)).1,
   (C4_server_error_downgrade (-32050) "custom" (some (Json.str "d"))
      (some (Json.num 7))).2 (by decide)⟩

/-- C6: when the input text is not well-formed JSON (the parser returns an
error), the driver answers exactly the ParseError object
`{"jsonrpc":"2.0","error":{"code":-32700,"message":"Parse error"},"id":null}`,
never silence. -/
theorem C6_parse_error_output (h : HandlerFn) :
    handleRequestContext h none = some parseErrorNullId := rfl

/-- C7: an empty batch array yields a single InvalidRequest error object
(code -32600, id null) — one object, not an array of responses. -/
theorem C7_empty_batch (h : HandlerFn) :
    handleRequestContext h (some (Json.arr [])) = some invalidRequestNullId := rfl

/-- C1 counterexample: the request `{"jsonrpc":"2.0","id":1}` passes the
version check, its id 1 is captured as a legal scalar, the missing method
then fails validation — but the error response carries id `null`, not the
captured id 1. -/
theorem C1_counterexample :
    jget [("id", Json.num 1), ("jsonrpc", Json.str "2.0")] "id" = some (Json.num 1) ∧
    handleSingle handlerNineteen [("id", Json.num 1), ("jsonrpc", Json.str "2.0")] =
      .error (.WithoutId ErrorCode.InvalidRequest none) ∧
    handleRequestContext handlerNineteen
        (some (Json.obj [("id", Json.num 1), ("jsonrpc", Json.str "2.0")])) =
      some invalidRequestNullId ∧
    Json.null ≠ Json.num 1 :=
  ⟨rfl, rfl, rfl, fun hcontra => Json.noConfusion hcontra⟩

/-- C1 (amended): when the version check passed and the id was captured as
a non-object, a later validation failure (method absent or non-string, or
params present but neither sequence nor mapping) raises the error with the
id *discarded* (`WithoutId`), so the response's id field is JSON null
regardless of the captured id. -/
theorem C1_amended (h : HandlerFn) (req : List (String × Json))
    (hv : versionOk req = true)
    (hid : idIsObject (jget req "id") = false)
    (hfail : (jget req "method").bind Json.as_string = none ∨
      (∃ j, jget req "params" = some j ∧ paramsIllegal j = true)) :
    handleSingle h req = .error (.WithoutId ErrorCode.InvalidRequest none) ∧
    (InternalErrorCode.WithoutId ErrorCode.InvalidRequest none).into_response.id =
      some Json.null ∧
    handleRequestContext h (some (Json.obj req)) = some invalidRequestNullId := by
  have hs : handleSingle h req = .error (.WithoutId ErrorCode.InvalidRequest none) := by
    rcases hfail with hm | ⟨j, hj, hbad⟩
    · simp [handleSingle, hv, hid, hm]
    · cases hmm : (jget req "method").bind Json.as_string with
      | none => simp [handleSingle, hv, hid, hmm]
      | some m =>
        have hpp : parseParams (jget req "params") =
            .error (.WithoutId ErrorCode.InvalidRequest none) := by
          rw [hj]
          cases j <;> first
            | rfl
            | (exfalso; exact Bool.noConfusion hbad)
        simp [handleSingle, hv, hid, hmm, hpp]
  refine ⟨hs, rfl, ?_⟩
  simp [handleRequestContext, handleRequest, hs]
  rfl

/-- C1 witness: the amended theorem applied to `{"jsonrpc":"2.0","id":1}`
with no method, under the handler answering 19. -/
theorem C1_witness :
    handleSingle handlerNineteen [("id", Json.num 1), ("jsonrpc", Json.str "2.0")] =
      .error (.WithoutId ErrorCode.InvalidRequest none) ∧
    (InternalErrorCode.WithoutId ErrorCode.InvalidRequest none).into_response.id =
      some Json.null ∧
    handleRequestContext handlerNineteen
        (some (Json.obj [("id", Json.num 1), ("jsonrpc", Json.str "2.0")])) =
      some invalidRequestNullId :=
  C1_amended handlerNineteen [("id", Json.num 1), ("jsonrpc", Json.str "2.0")]
    rfl rfl (Or.inl rfl)

/-- C2 counterexample: for `{"jsonrpc":"2.0","method":"simple_method",
"params":null,"id":3}` validation does not fail — the handler is invoked
(exactly once) and a success response is produced, matching the crate's own
`test_empty_params`. -/
theorem C2_counterexample :
    (handleSingleCount handlerOne
      [("id", Json.num 3), ("jsonrpc", Json.str "2.0"),
       ("method", Json.str "simple_method"), ("params", Json.null)]).2 = 1 ∧
    handleSingle handlerOne
      [("id", Json.num 3), ("jsonrpc", Json.str "2.0"),
       ("method", Json.str "simple_method"), ("params", Json.null)] =
      .ok { result := some (Json.num 1), error := none, id := some (Json.num 3) } ∧
    handleRequestContext handlerOne
        (some (Json.obj
          [("id", Json.num 3), ("jsonrpc", Json.str "2.0"),
           ("method", Json.str "simple_method"), ("params", Json.null)])) =
      some (Json.obj [("id", Json.num 3), ("jsonrpc", Json.str "2.0"),
                      ("result", Json.num 1)]) :=
  ⟨rfl, rfl, rfl⟩

/-- C2 (amended): a `params` key present with the explicit JSON value null
is treated exactly like an absent `params`: validation passes and the
handler is invoked (once) with `params = None`. -/
theorem C2_amended (h : HandlerFn) (req : List (String × Json)) (m : String)
    (hv : versionOk req = true)
    (hid : idIsObject (jget req "id") = false)
    (hm : (jget req "method").bind Json.as_string = some m)
    (hp : jget req "params" = some Json.null) :
    handleSingle h req = dispatch h ⟨m, none, jget req "id"⟩ ∧
    (handleSingleCount h req).2 = 1 := by
  constructor
  · simp [handleSingle, hv, hid, hm, hp, parseParams]
  · simp [handleSingleCount, hv, hid, hm, hp, parseParams]

/-- C2 witness: the amended theorem applied to the `test_empty_params`
request. -/
theorem C2_witness :
    handleSingle handlerOne
      [("id", Json.num 3), ("jsonrpc", Json.str "2.0"),
       ("method", Json.str "simple_method"), ("params", Json.null)] =
      dispatch handlerOne ⟨"simple_method", none, some (Json.num 3)⟩ ∧
    (handleSingleCount handlerOne
      [("id", Json.num 3), ("jsonrpc", Json.str "2.0"),
       ("method", Json.str "simple_method"), ("params", Json.null)]).2 = 1 :=
  C2_amended handlerOne
    [("id", Json.num 3), ("jsonrpc", Json.str "2.0"),
     ("method", Json.str "simple_method"), ("params", Json.null)]
    "simple_method" rfl rfl rfl rfl

/-- C3 counterexample: the valid notification `{"jsonrpc":"2.0",
"method":"update"}` whose handler returns the non-null value 5 produces no
output — no InternalError response is composed. -/
theorem C3_counterexample :
    handleRequestContext handlerFive
        (some (Json.obj [("jsonrpc", Json.str "2.0"),
                         ("method", Json.str "update")])) = none := rfl

/-- C3 (amended): for every valid request missing `id` (a notification)
the engine produces no output whatever the handler returns: a null result,
a non-null result (only a warning is logged) and a classified failure all
end in silence. -/
theorem C3_amended (h : HandlerFn) (req : List (String × Json)) (m : String)
    (hv : versionOk req = true)
    (hm : (jget req "method").bind Json.as_string = some m)
    (hid : jget req "id" = none)
    (hp : ∃ p, parseParams (jget req "params") = .ok p) :
    handleRequestContext h (some (Json.obj req)) = none := by
  obtain ⟨p, hpp⟩ := hp
  have hs : handleSingle h req = dispatch h ⟨m, p, none⟩ := by
    simp [handleSingle, hv, hm, hpp, hid, idIsObject]
  cases hh : h ⟨m, p, none⟩ with
  | ok s =>
    have hr : handleRequest h (some (Json.obj req)) = .ok (some Json.null) := by
      have hnull : (JsonRpcResponse.new_result ⟨m, p, none⟩ s).to_json = Json.null :=
        to_json_null_of_id_none _ rfl
      simp [handleRequest, hs, dispatch, hh, hnull, Except.map]
    simp [handleRequestContext, hr]
  | error e =>
    have hr : handleRequest h (some (Json.obj req)) =
        .error (.WithId e.error none e.data) := by
      simp [handleRequest, hs, dispatch, hh, Except.map]
    have hnull : (InternalErrorCode.WithId e.error none e.data).into_response.to_json =
        Json.null :=
      to_json_null_of_id_none _ rfl
    simp [handleRequestContext, hr, hnull]

/-- C3 witness: the amended theorem applied to the notification
`{"jsonrpc":"2.0","method":"update","params":[1]}` under the handler
answering the non-null value 5. -/
theorem C3_witness :
    handleRequestContext handlerFive
        (some (Json.obj [("jsonrpc", Json.str "2.0"), ("method", Json.str "update"),
                         ("params", Json.arr [Json.num 1])])) = none :=
  C3_amended handlerFive
    [("jsonrpc", Json.str "2.0"), ("method", Json.str "update"),
     ("params", Json.arr [Json.num 1])]
    "update" rfl rfl rfl ⟨some (Json.arr [Json.num 1]), rfl⟩

/-- The fused `filter_map` of `_handle_multiple` equals mapping the
per-element processing over the whole batch and then dropping the
responses whose id is structurally absent. -/
theorem filterMap_retained (f : Json → JsonRpcResponse) (l : List Json) :
    (l.filterMap (fun request =>
      let response := f request
      match response.id with
      | none => none
      | some _ => some response)) =
    (l.map f).filter (fun r => r.id.isSome) := by
  induction l with
  | nil => rfl
  | cons a t ih =>
    simp only [List.filterMap_cons, List.map_cons, List.filter_cons]
    cases hfa : (f a).id <;> simp [hfa, ih]

/-- C8: a non-empty batch is processed element by element — the output is
the per-element responses, computed independently, taken in input order,
with the responses of structurally id-less elements (genuine
notifications) removed; if nothing remains the batch yields no response at
all rather than an empty array. -/
theorem C8_batch_semantics (h : HandlerFn) (array : List Json) (hne : array ≠ []) :
    (handleMultiple h array =
      (let retained := (array.map (elemResponse h)).filter (fun r => r.id.isSome)
       if retained.isEmpty then .ok none
       else .ok (some (Json.arr (retained.map JsonRpcResponse.to_json))))) ∧
    ((∀ x ∈ array, (elemResponse h x).id = none) →
      handleMultiple h array = .ok none) := by
  have hemp : array.isEmpty = false := by
    cases array with
    | nil => exact absurd rfl hne
    | cons a t => rfl
  have hform : handleMultiple h array =
      (let retained := (array.map (elemResponse h)).filter (fun r => r.id.isSome)
       if retained.isEmpty then .ok none
       else .ok (some (Json.arr (retained.map JsonRpcResponse.to_json)))) := by
    unfold handleMultiple
    rw [hemp, filterMap_retained (elemResponse h) array]
    rfl
  refine ⟨hform, fun hall => ?_⟩
  have hfil : (array.map (elemResponse h)).filter (fun r => r.id.isSome) = [] := by
    apply List.filter_eq_nil_iff.mpr
    intro r hr
    rcases List.mem_map.mp hr with ⟨x, hx, rfl⟩
    simp [hall x hx]
  rw [hform]
  simp [hfil]

/-- C8 witness: the theorem applied to a concrete mixed batch (call,
notification, non-object element) and to an all-notification batch. -/
theorem C8_witness :
    (handleMultiple handlerNineteen batchMixed =
      (let retained := (batchMixed.map (elemResponse handlerNineteen)).filter
         (fun r => r.id.isSome)
       if retained.isEmpty then .ok none
       else .ok (some (Json.arr (retained.map JsonRpcResponse.to_json))))) ∧
    handleMultiple handlerNull batchNotifs = .ok none :=
  ⟨(C8_batch_semantics handlerNineteen batchMixed (by simp [batchMixed])).1,
   (C8_batch_semantics handlerNull batchNotifs (by simp [batchNotifs])).2
     (by
       intro x hx
       rcases List.mem_cons.mp hx with hx1 | hx2
       · subst hx1; rfl
       · rcases List.mem_cons.mp hx2 with hx3 | hx4
         · subst hx3; rfl
         · exact absurd hx4 (List.not_mem_nil x))⟩

/-- The instrumented single dispatcher computes the same answer as
`_handle_single`. -/
theorem handleSingleCount_fst (h : HandlerFn) (req : List (String × Json)) :
    (handleSingleCount h req).1 = handleSingle h req := by
  cases hv : versionOk req with
  | false => simp [handleSingle, handleSingleCount, hv]
  | true =>
    cases hid : idIsObject (jget req "id") with
    | true => simp [handleSingle, handleSingleCount, hv, hid]
    | false =>
      cases hm : (jget req "method").bind Json.as_string with
      | none => simp [handleSingle, handleSingleCount, hv, hid, hm]
      | some m =>
        cases hp : parseParams (jget req "params") with
        | error e => simp [handleSingle, handleSingleCount, hv, hid, hm, hp]
        | ok p => simp [handleSingle, handleSingleCount, hv, hid, hm, hp]

/-- C9: the instrumented dispatcher agrees with `_handle_single`; a single
request that fails envelope validation never invokes the handler and its
outcome is the same under any two handlers; a request that passes
validation invokes the handler exactly once. -/
theorem C9_handler_invocation (h : HandlerFn) (req : List (String × Json)) :
    ((handleSingleCount h req).1 = handleSingle h req) ∧
    (validates req = false →
      (handleSingleCount h req).2 = 0 ∧
      ∀ h₁ h₂ : HandlerFn, handleSingle h₁ req = handleSingle h₂ req) ∧
    (validates req = true → (handleSingleCount h req).2 = 1) := by
  refine ⟨handleSingleCount_fst h req, ?_⟩
  cases hv : versionOk req with
  | false =>
    exact ⟨fun _ => ⟨by simp [handleSingleCount, hv],
                     fun h₁ h₂ => by simp [handleSingle, hv]⟩,
           fun hval => absurd hval (by simp [validates, hv])⟩
  | true =>
    cases hid : idIsObject (jget req "id") with
    | true =>
      exact ⟨fun _ => ⟨by simp [handleSingleCount, hv, hid],
                       fun h₁ h₂ => by simp [handleSingle, hv, hid]⟩,
             fun hval => absurd hval (by simp [validates, hv, hid])⟩
    | false =>
      cases hm : (jget req "method").bind Json.as_string with
      | none =>
        exact ⟨fun _ => ⟨by simp [handleSingleCount, hv, hid, hm],
                         fun h₁ h₂ => by simp [handleSingle, hv, hid, hm]⟩,
               fun hval => absurd hval (by simp [validates, hv, hid, hm])⟩
      | some m =>
        cases hp : parseParams (jget req "params") with
        | error e =>
          exact ⟨fun _ => ⟨by simp [handleSingleCount, hv, hid, hm, hp],
                           fun h₁ h₂ => by simp [handleSingle, hv, hid, hm, hp]⟩,
                 fun hval => absurd hval (by simp [validates, hv, hid, hm, hp, Except.isOk, Except.toBool])⟩
        | ok p =>
          exact ⟨fun hinv => absurd hinv (by simp [validates, hv, hid, hm, hp, Except.isOk, Except.toBool]),
                 fun _ => by simp [handleSingleCount, hv, hid, hm, hp]⟩

/-- C9 witness: zero handler invocations and handler-independence for the
invalid request `{"jsonrpc":"2.0","method":1}`, exactly one invocation for
the valid request `{"jsonrpc":"2.0","method":"subtract","id":1}`. -/
theorem C9_witness :
    (handleSingleCount handlerNineteen
      [("jsonrpc", Json.str "2.0"), ("method", Json.num 1)]).2 = 0 ∧
    handleSingle handlerNull [("jsonrpc", Json.str "2.0"), ("method", Json.num 1)] =
      handleSingle handlerNineteen [("jsonrpc", Json.str "2.0"), ("method", Json.num 1)] ∧
    (handleSingleCount handlerNineteen
      [("id", Json.num 1), ("jsonrpc", Json.str "2.0"),
       ("method", Json.str "subtract")]).2 = 1 :=
  ⟨((C9_handler_invocation handlerNineteen
      [("jsonrpc", Json.str "2.0"), ("method", Json.num 1)]).2.1 rfl).1,
   ((C9_handler_invocation handlerNineteen
      [("jsonrpc", Json.str "2.0"), ("method", Json.num 1)]).2.1 rfl).2
     handlerNull handlerNineteen,
   (C9_handler_invocation handlerNineteen
      [("id", Json.num 1), ("jsonrpc", Json.str "2.0"),
       ("method", Json.str "subtract")]).2.2 rfl⟩

/-- C10: an id that is a JSON array or a JSON boolean passes the id check
(only an object id is rejected) and is echoed verbatim both in the
composed response and in that response's rendered `id` member. -/
theorem C10_array_bool_id (h : HandlerFn) (req : List (String × Json))
    (idv v : Json) (pv : Option Json) (m : String)
    (hshape : (∃ xs, idv = Json.arr xs) ∨ (∃ b, idv = Json.bool b))
    (hv : versionOk req = true)
    (hid : jget req "id" = some idv)
    (hm : (jget req "method").bind Json.as_string = some m)
    (hp : parseParams (jget req "params") = .ok pv)
    (hh : h ⟨m, pv, some idv⟩ = .ok v) :
    idIsObject (some idv) = false ∧
    handleSingle h req = .ok { result := some v, error := none, id := some idv } ∧
    JsonRpcResponse.to_json { result := some v, error := none, id := some idv } =
      Json.obj [("id", idv), ("jsonrpc", Json.str "2.0"), ("result", v)] := by
  have hido : idIsObject (some idv) = false := by
    rcases hshape with ⟨xs, rfl⟩ | ⟨b, rfl⟩ <;> rfl
  refine ⟨hido, ?_, ?_⟩
  · simp [handleSingle, hv, hido, hm, hp, hid, dispatch, hh,
      JsonRpcResponse.new_result]
  · rfl

/-- C10 witness: the theorem applied to a request with the array id `[7]`
under the handler answering 19. -/
theorem C10_witness :
    idIsObject (some (Json.arr [Json.num 7])) = false ∧
    handleSingle handlerNineteen
      [("id", Json.arr [Json.num 7]), ("jsonrpc", Json.str "2.0"),
       ("method", Json.str "m")] =
      .ok { result := some (Json.num 19), error := none,
            id := some (Json.arr [Json.num 7]) } ∧
    JsonRpcResponse.to_json
      { result := some (Json.num 19), error := none,
        id := some (Json.arr [Json.num 7]) } =
      Json.obj [("id", Json.arr [Json.num 7]), ("jsonrpc", Json.str "2.0"),
                ("result", Json.num 19)] :=
  C10_array_bool_id handlerNineteen
    [("id", Json.arr [Json.num 7]), ("jsonrpc", Json.str "2.0"),
     ("method", Json.str "m")]
    (Json.arr [Json.num 7]) (Json.num 19) none "m"
    (Or.inl ⟨[Json.num 7], rfl⟩) rfl rfl rfl rfl rfl

end JsonRpc
